import Mathlib

/-!
# Verification of the qubitcrypt hybrid-KEM core

A shallow embedding of the qubitcrypt repository's hybrid key-encapsulation
combiner (`src/kem/xwing.rs`), the composite public-key DER codec
(`src/asn1/composite_public_key.rs`), the typed key wrappers
(`src/asn1/private_key.rs`, `src/asn1/public_key.rs`) and the enveloped-data
reader (`src/cms/asn1/enveloped_data_content.rs`), together with theorems
settling the specification's claims about them.

Byte strings are modelled as `List Nat` (each entry a byte value).  The
sub-KEM primitives (ML-KEM-768, X25519, SHAKE128, SHA3-256) live in other
crates / other modules of the repository and are treated as opaque providers,
exactly as the specification prescribes; they appear here as fields of a
`SubPrimitives` structure over which the theorems quantify.
-/

abbrev Bytes := List Nat

/-- The error type of the crate (`QubitCryptError`), restricted to the
variants the embedded operations can produce. -/
inductive QubitCryptError where
  | InvalidPublicKey
  | InvalidPrivateKey
  | InvalidCiphertext
  | InvalidContent
  | InvalidEnvelopedData
  | InvalidOid
  | UnsupportedOperation
  | KeyPairGenerationFailed
  deriving DecidableEq, Repr

/-- Decidable equality for `Except` results, so that concrete runs of the
embedded operations can be checked by `decide`. -/
instance {ε α : Type} [DecidableEq ε] [DecidableEq α] :
    DecidableEq (Except ε α) := fun a b =>
  match a, b with
  | .error e, .error f => decidable_of_iff (e = f) (by simp)
  | .ok x, .ok y => decidable_of_iff (x = y) (by simp)
  | .error _, .ok _ => isFalse (by simp)
  | .ok _, .error _ => isFalse (by simp)

/-- Observable cryptographic computations performed by the X-Wing manager;
used to record, in order, which sub-operations a call executes. -/
inductive CryptoEvent where
  | expandKey
  | ecEncap
  | mlEncap
  | mlDecap
  | ecDecap
  | combine
  deriving DecidableEq, Repr

/-- Modelled from the spec: the sub-KEM and hash primitives consumed by
`XWingKemManager` (`MlKemManager`, `EcKemManager`, `Sha3Kdf` and the
`sha3` crate) are not under `src/`; the spec declares the raw primitive
implementations out of scope and treats them as opaque providers, so they
are modelled as unconstrained total functions.  `mlKeyGenDet d z` returns
the deterministic ML-KEM-768 pair `(pk_m, sk_m)`; `ecEncap`/`mlEncap`
return `(shared_secret, ciphertext)` pairs as in the source bindings. -/
structure SubPrimitives where
  shake : Bytes → Nat → Bytes
  mlKeyGenDet : Bytes → Bytes → Bytes × Bytes
  getPkFromSk : Bytes → Bytes
  ecEncap : Bytes → Bytes × Bytes
  mlEncap : Bytes → Bytes × Bytes
  mlDecap : Bytes → Bytes → Bytes
  ecDecap : Bytes → Bytes → Bytes
  sha3_256 : Bytes → Bytes

namespace XWing

/-- The domain-separation label `b"\\.//^\\"` of
`XWingKemManager::combiner`: the bytes of `\.//^\`. -/
def xwingLabel : Bytes := [92, 46, 47, 47, 94, 92]

/-- `XWingKemManager::combiner`: SHA3-256 of
`label || ss_m || ss_x || ct_x || pk_x`. -/
def combiner (P : SubPrimitives) (ss_m ss_x ct_x pk_x : Bytes) : Bytes :=
  P.sha3_256 (xwingLabel ++ ss_m ++ ss_x ++ ct_x ++ pk_x)

/-- `XWingKemManager::expand_decapsulation_key`: SHAKE-expand the 32-byte
seed into 96 bytes, take `d = expanded[0..32]`, `z = expanded[32..64]`,
`sk_x = expanded[64..96]`, derive the ML-KEM pair from `(d, z)` and the
X25519 public key from `sk_x`.  Returns `(sk_m, sk_x, pk_m, pk_x)`. -/
def expand_decapsulation_key (P : SubPrimitives) (sk : Bytes) :
    Bytes × Bytes × Bytes × Bytes :=
  let expanded := P.shake sk 96
  let d := expanded.take 32
  let z := (expanded.drop 32).take 32
  let mlkp := P.mlKeyGenDet d z
  let sk_x := (expanded.drop 64).take 32
  let pk_x := P.getPkFromSk sk_x
  (mlkp.2, sk_x, mlkp.1, pk_x)

/-- `XWingKemManager::key_gen` with the freshly drawn 32 random bytes made
an explicit argument: expand the seed, concatenate `pk_m ++ pk_x`, and
return `(pk, sk)` where the private key is the seed itself. -/
def key_gen (P : SubPrimitives) (sk : Bytes) : Bytes × Bytes :=
  let ex := expand_decapsulation_key P sk
  let pk := ex.2.2.1 ++ ex.2.2.2
  (pk, sk)

/-- `XWingKemManager::encap`, instrumented with the ordered list of
cryptographic sub-operations it performs.  Mirrors the source: the length
guard runs first; on success the X25519 encapsulation runs before the
ML-KEM one, then the combiner; the result pair is `Ok((ss, ct))`. -/
def encapT (P : SubPrimitives) (pk : Bytes) :
    Except QubitCryptError (Bytes × Bytes) × List CryptoEvent :=
  if pk.length ≠ 1216 then (.error .InvalidPublicKey, [])
  else
    let pk_m := pk.take 1184
    let pk_x := (pk.drop 1184).take 32
    let ec := P.ecEncap pk_x
    let ml := P.mlEncap pk_m
    let ss := combiner P ml.1 ec.1 ec.2 pk_x
    let ct := ml.2 ++ ec.2
    (.ok (ss, ct), [.ecEncap, .mlEncap, .combine])

/-- `XWingKemManager::encap`, result only. -/
def encap (P : SubPrimitives) (pk : Bytes) :
    Except QubitCryptError (Bytes × Bytes) :=
  (encapT P pk).1

/-- `XWingKemManager::decap`, instrumented with the ordered list of
cryptographic sub-operations it performs.  Mirrors the source order: the
secret seed is expanded first (line 136), only then is the ciphertext
length checked (line 137); afterwards the ML-KEM decapsulation runs, then
the X25519 one, then the combiner. -/
def decapT (P : SubPrimitives) (sk ct : Bytes) :
    Except QubitCryptError Bytes × List CryptoEvent :=
  let ex := expand_decapsulation_key P sk
  if ct.length ≠ 1120 then (.error .InvalidCiphertext, [.expandKey])
  else
    let ct_m := ct.take 1088
    let ct_x := (ct.drop 1088).take 32
    let ss_m := P.mlDecap ex.1 ct_m
    let ss_x := P.ecDecap ex.2.1 ct_x
    let ss := combiner P ss_m ss_x ct_x ex.2.2.2
    (.ok ss, [.expandKey, .mlDecap, .ecDecap, .combine])

/-- `XWingKemManager::decap`, result only. -/
def decap (P : SubPrimitives) (sk ct : Bytes) :
    Except QubitCryptError Bytes :=
  (decapT P sk ct).1

end XWing

/-! ## DER codec for `CompositePublicKey`

`src/asn1/composite_public_key.rs` delegates to the external `der` crate:
`to_der` serializes `SEQUENCE SIZE (2) OF BIT STRING` (each bit string with
zero unused bits), `from_der` parses it back and rejects anything else.
The DER encoding rules the crate implements are reproduced here:
definite-length encoding (short form below 128, long form with a
big-endian base-256 length otherwise), `BIT STRING` tag 0x03 with a
leading unused-bits byte, `SEQUENCE` tag 0x30, and full input
consumption. -/

namespace Der

/-- Value of a big-endian base-256 digit string. -/
def ofBigEndian (l : Bytes) : Nat := l.foldl (fun acc b => acc * 256 + b) 0

/-- DER definite-length encoding of a content length. -/
def encodeLen (n : Nat) : Bytes :=
  if n < 128 then [n]
  else
    let ds := (Nat.digits 256 n).reverse
    (128 + ds.length) :: ds

/-- DER definite-length decoding; returns the length and the remaining
input. -/
def decodeLen : Bytes → Option (Nat × Bytes)
  | [] => none
  | b :: rest =>
    if b < 128 then some (b, rest)
    else
      let k := b - 128
      if k = 0 then none
      else if rest.length < k then none
      else some (ofBigEndian (rest.take k), rest.drop k)

/-- DER encoding of a `BIT STRING` with zero unused bits
(`BitString::new(0, x)`). -/
def bitStringDer (x : Bytes) : Bytes :=
  3 :: (encodeLen (x.length + 1) ++ (0 :: x))

/-- DER parsing of a `BIT STRING`, yielding its content bytes (defined
only when the unused-bits count is zero, as `BitString::as_bytes`
requires) and the remaining input. -/
def parseBitString : Bytes → Option (Bytes × Bytes)
  | [] => none
  | t :: rest =>
    if t ≠ 3 then none
    else
      match decodeLen rest with
      | none => none
      | some (n, rest2) =>
        if rest2.length < n then none
        else
          match rest2.take n with
          | [] => none
          | u :: bits => if u ≠ 0 then none else some (bits, rest2.drop n)

end Der

/-- `CompositePublicKey` (`src/asn1/composite_public_key.rs`): the OID of
the composite scheme together with the raw post-quantum and traditional
component public keys. -/
structure CompositePublicKey where
  oid : String
  pq_pk : Bytes
  trad_pk : Bytes
  deriving DecidableEq, Repr

namespace CompositePublicKey

/-- `CompositePublicKey::new`. -/
def new (oid : String) (pq_pk trad_pk : Bytes) : CompositePublicKey :=
  { oid := oid, pq_pk := pq_pk, trad_pk := trad_pk }

/-- `CompositePublicKey::to_der`: DER of the two-element `SEQUENCE` of
`BIT STRING`s, post-quantum component first, both with zero unused bits. -/
def to_der (k : CompositePublicKey) : Bytes :=
  let inner := Der.bitStringDer k.pq_pk ++ Der.bitStringDer k.trad_pk
  48 :: (Der.encodeLen inner.length ++ inner)

/-- `CompositePublicKey::from_der`: parse the two-element `SEQUENCE` of
`BIT STRING`s; any structural defect (wrong tag, wrong count, unused
bits, trailing data) fails with `InvalidPublicKey`. -/
def from_der (oid : String) (der : Bytes) :
    Except QubitCryptError CompositePublicKey :=
  match der with
  | [] => .error .InvalidPublicKey
  | t :: rest =>
    if t ≠ 48 then .error .InvalidPublicKey
    else
      match Der.decodeLen rest with
      | none => .error .InvalidPublicKey
      | some (n, rest2) =>
        if rest2.length ≠ n then .error .InvalidPublicKey
        else
          match Der.parseBitString rest2 with
          | none => .error .InvalidPublicKey
          | some (a, rest3) =>
            match Der.parseBitString rest3 with
            | none => .error .InvalidPublicKey
            | some (b, rest4) =>
              if rest4 ≠ [] then .error .InvalidPublicKey
              else .ok (new oid a b)

end CompositePublicKey

/-! ## Typed key wrappers (`src/asn1/private_key.rs`, `src/asn1/public_key.rs`)

The OID classification helpers (`asn_util`) and the per-algorithm managers
(`KemManager`, `DsaManager`) live in modules of the repository that are not
under `src/`; following the spec they form an algorithm registry resolving
an OID string to a capability instance, modelled here as the `Registry`
structure over which the theorems quantify. -/

/-- A resolved KEM capability instance
(`{encapsulate, decapsulate}` of the spec registry contract). -/
structure KemInstance where
  encap : Bytes → Except QubitCryptError (Bytes × Bytes)
  decap : Bytes → Bytes → Except QubitCryptError Bytes

/-- A resolved DSA capability instance
(`{sign, get_public_key}` of the spec registry contract). -/
structure DsaInstance where
  sign : Bytes → Bytes → Except QubitCryptError Bytes
  get_public_key : Bytes → Except QubitCryptError Bytes

/-- Modelled from the spec: the algorithm registry —
`asn_util::is_dsa_oid` / `is_kem_oid` / `is_valid_kem_or_dsa_oid` /
`is_composite_kem_or_dsa_oid` and `KemManager::new_from_oid` /
`DsaManager::new_from_oid` — is repository code not under `src/`; the spec
describes it as a pure OID lookup failing on unknown identifiers. -/
structure Registry where
  is_dsa_oid : String → Bool
  is_kem_oid : String → Bool
  is_valid_kem_or_dsa_oid : String → Bool
  is_composite_kem_or_dsa_oid : String → Bool
  kemNew : String → Except QubitCryptError KemInstance
  dsaNew : String → Except QubitCryptError DsaInstance

/-- `PublicKey` (`src/asn1/public_key.rs`): OID, raw key material, and the
composite flag. -/
structure PublicKey where
  oid : String
  key : Bytes
  is_composite : Bool
  deriving DecidableEq, Repr

/-- `PrivateKey` (`src/asn1/private_key.rs`): OID, raw key material, and
the composite flag. -/
structure PrivateKey where
  oid : String
  private_key : Bytes
  is_composite : Bool
  deriving DecidableEq, Repr

namespace PublicKey

/-- `PublicKey::new`: reject an OID outside the registry with
`InvalidPublicKey`, otherwise store the material and the composite flag. -/
def new (R : Registry) (oid : String) (key : Bytes) :
    Except QubitCryptError PublicKey :=
  if ¬ R.is_valid_kem_or_dsa_oid oid then .error .InvalidPublicKey
  else .ok { oid := oid, key := key,
             is_composite := R.is_composite_kem_or_dsa_oid oid }

/-- `PublicKey::encap`: fail `UnsupportedOperation` unless the OID names a
KEM; resolve the KEM (mapping a lookup failure to `InvalidOid`) and return
its encapsulation result pair unchanged. -/
def encap (R : Registry) (k : PublicKey) :
    Except QubitCryptError (Bytes × Bytes) :=
  if ¬ R.is_kem_oid k.oid then .error .UnsupportedOperation
  else
    match R.kemNew k.oid with
    | .error _ => .error .InvalidOid
    | .ok kem =>
      match kem.encap k.key with
      | .error e => .error e
      | .ok p => .ok p

end PublicKey

namespace PrivateKey

/-- `PrivateKey::sign`: fail `UnsupportedOperation` unless the OID names a
DSA; otherwise resolve the DSA and sign. -/
def sign (R : Registry) (k : PrivateKey) (data : Bytes) :
    Except QubitCryptError Bytes :=
  if ¬ R.is_dsa_oid k.oid then .error .UnsupportedOperation
  else
    match R.dsaNew k.oid with
    | .error e => .error e
    | .ok dsa => dsa.sign k.private_key data

/-- `PrivateKey::decap`: fail `UnsupportedOperation` when the OID names a
DSA; otherwise resolve the KEM and decapsulate. -/
def decap (R : Registry) (k : PrivateKey) (ct : Bytes) :
    Except QubitCryptError Bytes :=
  if R.is_dsa_oid k.oid then .error .UnsupportedOperation
  else
    match R.kemNew k.oid with
    | .error e => .error e
    | .ok kem => kem.decap k.private_key ct

end PrivateKey

/-- Outcome of a call that may abort the process: either a process abort
(`panic!` / `.unwrap()` on an error) or a normal return value. -/
inductive PanicOr (α : Type) where
  | panic
  | value (a : α)
  deriving DecidableEq, Repr

/-- `impl Keypair for PrivateKey :: verifying_key`
(`src/asn1/private_key.rs` lines 37-50): `panic!("Unsupported operation")`
on a non-DSA OID, then `DsaManager::new_from_oid(..).unwrap()`,
`get_public_key(..).unwrap()` and `PublicKey::new(..).unwrap()`, each of
which aborts the process on an error result. -/
def PrivateKey.verifying_key (R : Registry) (k : PrivateKey) :
    PanicOr PublicKey :=
  if ¬ R.is_dsa_oid k.oid then .panic
  else
    match R.dsaNew k.oid with
    | .error _ => .panic
    | .ok dsa =>
      match dsa.get_public_key k.private_key with
      | .error _ => .panic
      | .ok pk =>
        match PublicKey.new R k.oid pk with
        | .error _ => .panic
        | .ok p => .value p

/-! ## Enveloped-data reader (`src/cms/asn1/enveloped_data_content.rs`)

`ContentInfo`, PEM parsing and `CmsUtil::decrypt_kemri` come from the
external `cms`/`pem` crates and from repository modules not under `src/`;
they are modelled as fields of `CmsPrims`. -/

/-- The OID of `id-envelopedData` (`const_oid::db::rfc5911::ID_ENVELOPED_DATA`). -/
def ID_ENVELOPED_DATA : String := "1.2.840.113549.1.7.3"

/-- A parsed CMS `ContentInfo`: the outer content-type OID and the DER
bytes of the inner content. -/
structure ContentInfo where
  content_type : String
  content : Bytes
  deriving DecidableEq, Repr

/-- A parsed CMS `EnvelopedData` body (fields the reader copies out). -/
structure EnvelopedData where
  version : Nat
  originator_info : Option Bytes
  recip_infos : Bytes
  unprotected_attrs : Option Bytes
  deriving DecidableEq, Repr

/-- The result assembled by the reader (`EnvelopedDataContent`). -/
structure EnvelopedDataContent where
  version : Nat
  originator_info : Option Bytes
  recip_infos : Bytes
  content : Bytes
  unprotected_attrs : Option Bytes
  deriving DecidableEq, Repr

/-- Modelled from the spec: the DER/PEM codecs (`ContentInfo::from_der`,
`pem::parse`, `EnvelopedData::from_der` of the external `cms`/`pem`/`der`
crates) and the decryption pipeline `CmsUtil::decrypt_kemri` (repository
code not under `src/`; per the spec it accepts the same envelope bytes the
reader accepts and collapses every decryption-path failure into one
outcome). `pemParse` returns the decoded contents of a PEM document. -/
structure CmsPrims where
  contentInfoFromDer : Bytes → Option ContentInfo
  pemParse : Bytes → Option Bytes
  pemEncode : Bytes → Bytes
  envelopedDataFromDer : Bytes → Option EnvelopedData
  decrypt_kemri : Bytes → PrivateKey → Bytes → Except QubitCryptError Bytes

/-- `EnvelopedDataContent::from_bytes_for_kem_recipient`: try the input as
DER-encoded `ContentInfo`; failing that, parse it as PEM and decode the
PEM contents as `ContentInfo` (`InvalidContent` if neither succeeds);
require the outer content type to be `id-envelopedData`
(`InvalidContent` otherwise); parse the inner `EnvelopedData`
(`InvalidContent` on failure); decrypt with
`CmsUtil::decrypt_kemri(data, sk, cert)` and assemble the result. -/
def from_bytes_for_kem_recipient (C : CmsPrims) (data : Bytes)
    (recipient_cert : Bytes) (recipient_private_key : PrivateKey) :
    Except QubitCryptError EnvelopedDataContent :=
  let ci? : Except QubitCryptError ContentInfo :=
    match C.contentInfoFromDer data with
    | some content_info => .ok content_info
    | none =>
      match C.pemParse data with
      | none => .error .InvalidContent
      | some contents =>
        match C.contentInfoFromDer contents with
        | none => .error .InvalidContent
        | some ci => .ok ci
  match ci? with
  | .error e => .error e
  | .ok ci =>
    if ci.content_type ≠ ID_ENVELOPED_DATA then .error .InvalidContent
    else
      match C.envelopedDataFromDer ci.content with
      | none => .error .InvalidContent
      | some ed =>
        match C.decrypt_kemri data recipient_private_key recipient_cert with
        | .error e => .error e
        | .ok pt =>
          .ok { version := ed.version,
                originator_info := ed.originator_info,
                recip_infos := ed.recip_infos,
                content := pt,
                unprotected_attrs := ed.unprotected_attrs }

/-! ## Concrete instances used by witnesses and counterexamples -/

/-- A concrete instantiation of the opaque sub-primitives, respecting the
fixed sizes the spec declares for them (ML-KEM-768 public key 1184 bytes
and ciphertext 1088 bytes, X25519 public key and ciphertext 32 bytes,
32-byte shared secrets and hash output, requested SHAKE output length). -/
def subP : SubPrimitives where
  shake := fun _ n => List.replicate n 1
  mlKeyGenDet := fun _ _ => (List.replicate 1184 2, List.replicate 32 3)
  getPkFromSk := fun _ => List.replicate 32 4
  ecEncap := fun _ => (List.replicate 32 5, List.replicate 32 6)
  mlEncap := fun _ => (List.replicate 32 7, List.replicate 1088 8)
  mlDecap := fun _ _ => List.replicate 32 7
  ecDecap := fun _ _ => List.replicate 32 5
  sha3_256 := fun _ => List.replicate 32 9

/-- A concrete 32-byte seed. -/
def seed₀ : Bytes := List.replicate 32 0

/-- The public key `key_gen` produces from `seed₀` under `subP`. -/
def xwingPk₀ : Bytes := List.replicate 1184 2 ++ List.replicate 32 4

/-- The shared secret `encap` produces for `xwingPk₀` under `subP`. -/
def xwingSs₀ : Bytes := List.replicate 32 9

/-- The ciphertext `encap` produces for `xwingPk₀` under `subP`. -/
def xwingCt₀ : Bytes := List.replicate 1088 8 ++ List.replicate 32 6

/-- A concrete resolvable KEM capability. -/
def kemInst₀ : KemInstance :=
  { encap := fun _ => .ok ([10], [11]), decap := fun _ _ => .ok [12] }

/-- A concrete resolvable DSA capability. -/
def dsaInstOk₀ : DsaInstance :=
  { sign := fun _ _ => .ok [13], get_public_key := fun _ => .ok [14] }

/-- A concrete DSA capability whose public-key derivation fails. -/
def dsaInstPkBad₀ : DsaInstance :=
  { sign := fun _ _ => .ok [13],
    get_public_key := fun _ => .error .InvalidPrivateKey }

/-- A concrete algorithm registry with one KEM OID and three DSA OIDs:
one whose capability resolves and derives a public key, one whose registry
lookup fails, and one whose public-key derivation fails. -/
def reg₀ : Registry where
  is_dsa_oid := fun s => s == "dsa-ok" || s == "dsa-bad" || s == "dsa-pk-bad"
  is_kem_oid := fun s => s == "kem-ok"
  is_valid_kem_or_dsa_oid := fun s =>
    s == "dsa-ok" || s == "dsa-bad" || s == "dsa-pk-bad" || s == "kem-ok"
  is_composite_kem_or_dsa_oid := fun _ => false
  kemNew := fun s => if s == "kem-ok" then .ok kemInst₀ else .error .InvalidOid
  dsaNew := fun s =>
    if s == "dsa-ok" then .ok dsaInstOk₀
    else if s == "dsa-pk-bad" then .ok dsaInstPkBad₀
    else .error .InvalidOid

/-- A concrete KEM private key over `reg₀`. -/
def kemSk₀ : PrivateKey := { oid := "kem-ok", private_key := [0], is_composite := false }

/-- A concrete KEM public key over `reg₀`. -/
def kemPk₀ : PublicKey := { oid := "kem-ok", key := [0], is_composite := false }

/-- A concrete DSA private key over `reg₀`. -/
def dsaSk₀ : PrivateKey := { oid := "dsa-ok", private_key := [0], is_composite := false }

/-- A concrete DSA private key whose registry lookup fails. -/
def dsaSkBad₀ : PrivateKey := { oid := "dsa-bad", private_key := [0], is_composite := false }

/-- A concrete DSA private key whose public-key derivation fails. -/
def dsaSkPkBad₀ : PrivateKey :=
  { oid := "dsa-pk-bad", private_key := [0], is_composite := false }

/-- A concrete DSA public key over `reg₀` (not a KEM key). -/
def dsaPk₀ : PublicKey := { oid := "dsa-ok", key := [0], is_composite := false }

/-- A concrete `ContentInfo` carrying the enveloped-data content type. -/
def ci₀ : ContentInfo := { content_type := ID_ENVELOPED_DATA, content := [1] }

/-- A concrete parsed `EnvelopedData` body. -/
def ed₀ : EnvelopedData :=
  { version := 3, originator_info := none, recip_infos := [2],
    unprotected_attrs := none }

/-- Concrete CMS primitives: `[0]` is the DER of an envelope with the
enveloped-data content type, `[9]` is its PEM encoding, `[7]` is the DER
of a `ContentInfo` with a different content type, and everything else
parses as neither. -/
def cms₀ : CmsPrims where
  contentInfoFromDer := fun b =>
    if b = [0] then some ci₀
    else if b = [7] then some { content_type := "1.2.3", content := [1] }
    else none
  pemParse := fun b => if b = [9] then some [0] else none
  pemEncode := fun b => if b = [0] then [9] else []
  envelopedDataFromDer := fun b => if b = [1] then some ed₀ else none
  decrypt_kemri := fun b _ _ =>
    if b = [0] ∨ b = [9] then .ok [42] else .error .InvalidContent

/-! ## Helper lemmas -/

theorem take_append_of_length {α : Type} {l₁ l₂ : List α} {n : Nat}
    (h : l₁.length = n) : (l₁ ++ l₂).take n = l₁ := by
  subst h; exact List.take_left l₁ l₂

theorem drop_append_of_length {α : Type} {l₁ l₂ : List α} {n : Nat}
    (h : l₁.length = n) : (l₁ ++ l₂).drop n = l₂ := by
  subst h; exact List.drop_left l₁ l₂

theorem take_all_of_length {α : Type} {l : List α} {n : Nat}
    (h : l.length = n) : l.take n = l := by
  subst h; exact List.take_length l

/-! ## Theorems -/

namespace Der

theorem foldr_base256_eq_ofDigits (l : List Nat) :
    l.foldr (fun b acc => acc * 256 + b) 0 = Nat.ofDigits 256 l := by
  induction l with
  | nil => simp [Nat.ofDigits_nil]
  | cons d ds ih =>
    simp only [List.foldr_cons, ih, Nat.ofDigits_cons]
    ring

theorem ofBigEndian_digits (n : Nat) :
    ofBigEndian ((Nat.digits 256 n).reverse) = n := by
  rw [ofBigEndian, List.foldl_reverse]
  have h := foldr_base256_eq_ofDigits (Nat.digits 256 n)
  simpa [Nat.ofDigits_digits] using h

theorem decodeLen_encodeLen (n : Nat) (r : Bytes) :
    decodeLen (encodeLen n ++ r) = some (n, r) := by
  by_cases h : n < 128
  · simp [encodeLen, decodeLen, h]
  · have hn : n ≠ 0 := by omega
    have hds : (Nat.digits 256 n).reverse ≠ [] := by
      simp [Nat.digits_ne_nil_iff_ne_zero, hn]
    have hlen : 0 < (Nat.digits 256 n).reverse.length :=
      List.length_pos.mpr hds
    simp only [encodeLen, if_neg h, List.cons_append]
    rw [decodeLen]
    have h128 : ¬ (128 + (Nat.digits 256 n).reverse.length < 128) := by omega
    rw [if_neg h128]
    have hk : 128 + (Nat.digits 256 n).reverse.length - 128
        = (Nat.digits 256 n).reverse.length := by omega
    simp only [hk]
    rw [if_neg (by omega)]
    rw [if_neg (by simp [List.length_append])]
    rw [List.take_left, List.drop_left, ofBigEndian_digits]

theorem parseBitString_bitStringDer (x r : Bytes) :
    parseBitString (bitStringDer x ++ r) = some (x, r) := by
  simp only [bitStringDer, List.cons_append, List.append_assoc]
  rw [parseBitString]
  rw [if_neg (by omega)]
  rw [decodeLen_encodeLen (x.length + 1) (0 :: (x ++ r))]
  have hlen : ¬ ((0 : Nat) :: (x ++ r)).length < x.length + 1 := by simp
  simp [hlen, List.take_succ_cons, List.drop_succ_cons, List.take_left,
    List.drop_left]

end Der

/-- Core round-trip property of the X-Wing manager: under the spec's size
and correctness contract for the two sub-KEMs, decapsulating with the seed
the ciphertext component of an encapsulation against the generated public
key reproduces the shared-secret component. -/
theorem xwing_roundtrip_core (P : SubPrimitives) (seed : Bytes)
    (hmlpk : ∀ d z, ((P.mlKeyGenDet d z).1).length = 1184)
    (hxpk : ∀ s, (P.getPkFromSk s).length = 32)
    (hmlct : ∀ pk, ((P.mlEncap pk).2).length = 1088)
    (hecct : ∀ pk, ((P.ecEncap pk).2).length = 32)
    (hmlcor : ∀ d z, P.mlDecap (P.mlKeyGenDet d z).2 (P.mlEncap (P.mlKeyGenDet d z).1).2
        = (P.mlEncap (P.mlKeyGenDet d z).1).1)
    (heccor : ∀ s, P.ecDecap s (P.ecEncap (P.getPkFromSk s)).2
        = (P.ecEncap (P.getPkFromSk s)).1) :
    ∀ p, XWing.encap P (XWing.key_gen P seed).1 = .ok p →
      XWing.decap P seed p.2 = .ok p.1 := by
  intro p hp
  set expanded := P.shake seed 96 with hexp
  set d := expanded.take 32 with hd
  set z := (expanded.drop 32).take 32 with hz
  set sk_x := (expanded.drop 64).take 32 with hskx
  set pk_m := (P.mlKeyGenDet d z).1 with hpkm
  set sk_m := (P.mlKeyGenDet d z).2 with hskm
  set pk_x := P.getPkFromSk sk_x with hpkx
  have hkg : XWing.key_gen P seed = (pk_m ++ pk_x, seed) := by
    simp [XWing.key_gen, XWing.expand_decapsulation_key, hd, hz, hskx, hpkm, hpkx]
  have hpklen : (pk_m ++ pk_x).length = 1216 := by
    simp [List.length_append, hmlpk d z, hxpk sk_x, hpkm, hpkx]
  have htake : (pk_m ++ pk_x).take 1184 = pk_m := take_append_of_length (hmlpk d z)
  have hdrop : ((pk_m ++ pk_x).drop 1184).take 32 = pk_x := by
    rw [drop_append_of_length (hmlpk d z), take_all_of_length (hxpk sk_x)]
  have henc : XWing.encap P (pk_m ++ pk_x)
      = .ok (XWing.combiner P (P.mlEncap pk_m).1 (P.ecEncap pk_x).1 (P.ecEncap pk_x).2 pk_x,
             (P.mlEncap pk_m).2 ++ (P.ecEncap pk_x).2) := by
    simp only [XWing.encap, XWing.encapT, hpklen, htake, hdrop]
    simp
  rw [hkg] at hp
  rw [henc] at hp
  injection hp with hp2
  subst hp2
  have hctlen : ((P.mlEncap pk_m).2 ++ (P.ecEncap pk_x).2).length = 1120 := by
    simp [List.length_append, hmlct pk_m, hecct pk_x]
  have hcttake : ((P.mlEncap pk_m).2 ++ (P.ecEncap pk_x).2).take 1088
      = (P.mlEncap pk_m).2 := take_append_of_length (hmlct pk_m)
  have hctdrop : (((P.mlEncap pk_m).2 ++ (P.ecEncap pk_x).2).drop 1088).take 32
      = (P.ecEncap pk_x).2 := by
    rw [drop_append_of_length (hmlct pk_m), take_all_of_length (hecct pk_x)]
  simp only [XWing.decap, XWing.decapT, XWing.expand_decapsulation_key]
  simp only [← hexp, ← hd, ← hz, ← hskx, ← hskm, ← hpkx]
  simp only [hctlen, hcttake, hctdrop]
  simp only [← hpkm, hmlcor d z, heccor sk_x]
  simp

/-- Shape of a successful encapsulation: the first component of the
returned pair is the combiner (SHA3-256) output and the second is the
concatenated ciphertext `ct_m ++ ct_x`. -/
theorem xwing_encap_ok_components (P : SubPrimitives) (pk : Bytes)
    (p : Bytes × Bytes) (h : XWing.encap P pk = .ok p) :
    p.1 = XWing.combiner P (P.mlEncap (pk.take 1184)).1
        (P.ecEncap ((pk.drop 1184).take 32)).1
        (P.ecEncap ((pk.drop 1184).take 32)).2 ((pk.drop 1184).take 32) ∧
    p.2 = (P.mlEncap (pk.take 1184)).2
        ++ (P.ecEncap ((pk.drop 1184).take 32)).2 := by
  by_cases hl : pk.length = 1216
  · simp only [XWing.encap, XWing.encapT, hl] at h
    simp at h
    subst h
    exact ⟨rfl, rfl⟩
  · simp [XWing.encap, XWing.encapT, hl] at h

/-- Concrete evaluation: length of the concrete public key. -/
theorem xwingPk₀_len : xwingPk₀.length = 1216 := by
  rw [xwingPk₀, List.length_append, List.length_replicate, List.length_replicate]

/-- Concrete evaluation: splitting the concrete public key at 1184. -/
theorem xwingPk₀_take : xwingPk₀.take 1184 = List.replicate 1184 2 := by
  rw [xwingPk₀]; exact take_append_of_length (List.length_replicate 1184 2)

/-- Concrete evaluation: the classical half of the concrete public key. -/
theorem xwingPk₀_drop : (xwingPk₀.drop 1184).take 32 = List.replicate 32 4 := by
  rw [xwingPk₀, drop_append_of_length (List.length_replicate 1184 2)]
  exact take_all_of_length (List.length_replicate 32 4)

/-- Concrete evaluation: length of the concrete ciphertext. -/
theorem xwingCt₀_len : xwingCt₀.length = 1120 := by
  rw [xwingCt₀, List.length_append, List.length_replicate, List.length_replicate]

/-- Concrete evaluation: splitting the concrete ciphertext at 1088. -/
theorem xwingCt₀_take : xwingCt₀.take 1088 = List.replicate 1088 8 := by
  rw [xwingCt₀]; exact take_append_of_length (List.length_replicate 1088 8)

/-- Concrete evaluation: the classical half of the concrete ciphertext. -/
theorem xwingCt₀_drop : (xwingCt₀.drop 1088).take 32 = List.replicate 32 6 := by
  rw [xwingCt₀, drop_append_of_length (List.length_replicate 1088 8)]
  exact take_all_of_length (List.length_replicate 32 6)

/-- Concrete evaluation: `key_gen` at `subP` and `seed₀`. -/
theorem keygen_subP : XWing.key_gen subP seed₀ = (xwingPk₀, seed₀) := by
  simp only [XWing.key_gen, XWing.expand_decapsulation_key, subP, xwingPk₀]

/-- Concrete evaluation: `encap` at `subP` and `xwingPk₀`. -/
theorem encap_subP : XWing.encap subP xwingPk₀ = .ok (xwingSs₀, xwingCt₀) := by
  have h : ¬ (xwingPk₀.length ≠ 1216) := by rw [xwingPk₀_len]; exact fun hh => hh rfl
  simp only [XWing.encap, XWing.encapT, if_neg h]
  simp only [xwingPk₀_take, xwingPk₀_drop]
  simp only [XWing.combiner, subP, xwingSs₀, xwingCt₀]

/-- Concrete evaluation: `decap` at `subP`, `seed₀` and `xwingCt₀`. -/
theorem decap_subP_ct : XWing.decap subP seed₀ xwingCt₀ = .ok xwingSs₀ := by
  have h : ¬ (xwingCt₀.length ≠ 1120) := by rw [xwingCt₀_len]; exact fun hh => hh rfl
  simp only [XWing.decap, XWing.decapT, XWing.expand_decapsulation_key, if_neg h]
  simp only [xwingCt₀_take, xwingCt₀_drop]
  simp only [XWing.combiner, subP, xwingSs₀]

/-- Concrete evaluation: `decap` at `subP`, `seed₀` and the 32-byte
`xwingSs₀` fails the length guard. -/
theorem decap_subP_ss : XWing.decap subP seed₀ xwingSs₀ = .error .InvalidCiphertext := by
  have h : xwingSs₀.length ≠ 1120 := by
    rw [xwingSs₀, List.length_replicate]; omega
  simp only [XWing.decap, XWing.decapT, if_pos h]

/-- C1 (amended): for every 32-byte secret seed and every ciphertext whose
length is not 1120 bytes, `XWingKemManager::decap` fails with
`InvalidCiphertext`, and the length guard fires before either sub-KEM
decapsulation and before the combiner — but only after the secret seed has
already been expanded (the expansion is the sole cryptographic computation
performed). -/
theorem C1_decap_length_guard (P : SubPrimitives) (sk ct : Bytes)
    (_hsk : sk.length = 32) (hct : ct.length ≠ 1120) :
    XWing.decapT P sk ct = (.error .InvalidCiphertext, [.expandKey]) := by
  simp [XWing.decapT, hct]

/-- C1 counterexample: at the concrete 32-byte seed `seed₀` and the empty
ciphertext, `decap` does fail with `InvalidCiphertext`, but the trace of
cryptographic computations executed before the failure is not empty: the
seed expansion has already run, contradicting the claim that the length
check happens before the seed is expanded. -/
theorem C1_counterexample :
    seed₀.length = 32 ∧ ([] : Bytes).length ≠ 1120 ∧
    (XWing.decapT subP seed₀ []).1 = .error .InvalidCiphertext ∧
    (XWing.decapT subP seed₀ []).2 ≠ [] ∧
    (XWing.decapT subP seed₀ []).2 = [.expandKey] := by
  refine ⟨by decide, by decide, by simp [XWing.decapT], ?_, by simp [XWing.decapT]⟩
  simp [XWing.decapT]

/-- C1 witness: the amended theorem applied at the concrete seed `seed₀`
and the empty ciphertext. -/
theorem C1_witness :
    XWing.decapT subP seed₀ [] = (.error .InvalidCiphertext, [.expandKey]) :=
  C1_decap_length_guard subP seed₀ [] (by decide) (by decide)

/-- C4: for every hybrid-KEM key pair produced by `key_gen` and every
encapsulation result `(ss, ct)` produced for its public key,
decapsulating `ct` with the 32-byte private seed returns exactly `ss`
(under the spec's size and correctness contract for the two opaque
sub-KEMs). -/
theorem C4_round_trip (P : SubPrimitives) (seed : Bytes)
    (hmlpk : ∀ d z, ((P.mlKeyGenDet d z).1).length = 1184)
    (hxpk : ∀ s, (P.getPkFromSk s).length = 32)
    (hmlct : ∀ pk, ((P.mlEncap pk).2).length = 1088)
    (hecct : ∀ pk, ((P.ecEncap pk).2).length = 32)
    (hmlcor : ∀ d z, P.mlDecap (P.mlKeyGenDet d z).2 (P.mlEncap (P.mlKeyGenDet d z).1).2
        = (P.mlEncap (P.mlKeyGenDet d z).1).1)
    (heccor : ∀ s, P.ecDecap s (P.ecEncap (P.getPkFromSk s)).2
        = (P.ecEncap (P.getPkFromSk s)).1) :
    ∀ ss ct, XWing.encap P (XWing.key_gen P seed).1 = .ok (ss, ct) →
      XWing.decap P (XWing.key_gen P seed).2 ct = .ok ss := by
  intro ss ct h
  have hsk : (XWing.key_gen P seed).2 = seed := rfl
  rw [hsk]
  exact xwing_roundtrip_core P seed hmlpk hxpk hmlct hecct hmlcor heccor (ss, ct) h

/-- C4 witness: the round trip at the concrete instantiation `subP` and
seed `seed₀`, with the concrete encapsulation result
`(xwingSs₀, xwingCt₀)`. -/
theorem C4_witness :
    XWing.decap subP (XWing.key_gen subP seed₀).2 xwingCt₀ = .ok xwingSs₀ :=
  C4_round_trip subP seed₀
    (fun _ _ => by simp only [subP]; exact List.length_replicate 1184 2)
    (fun _ => by simp only [subP]; exact List.length_replicate 32 4)
    (fun _ => by simp only [subP]; exact List.length_replicate 1088 8)
    (fun _ => by simp only [subP]; exact List.length_replicate 32 6)
    (fun _ _ => by simp only [subP]) (fun _ => by simp only [subP])
    xwingSs₀ xwingCt₀ (by rw [keygen_subP]; exact encap_subP)

/-- C5: every key pair returned by `key_gen` has the 32-byte random seed
itself as the private key, and as public key the concatenation of the
ML-KEM public key (1184 bytes, derived deterministically from
`d = expansion[0..32]` and `z = expansion[32..64]`) with the X25519 public
key (32 bytes, derived from the classical private scalar
`expansion[64..96]`), 1216 bytes in total, where `expansion` is the
96-byte SHAKE expansion of the seed. -/
theorem C5_key_gen_layout (P : SubPrimitives) (seed : Bytes)
    (hsk : seed.length = 32)
    (hmlpk : ∀ d z, ((P.mlKeyGenDet d z).1).length = 1184)
    (hxpk : ∀ s, (P.getPkFromSk s).length = 32) :
    (XWing.key_gen P seed).2 = seed ∧
    (XWing.key_gen P seed).2.length = 32 ∧
    (XWing.key_gen P seed).1
      = (P.mlKeyGenDet ((P.shake seed 96).take 32)
          (((P.shake seed 96).drop 32).take 32)).1
        ++ P.getPkFromSk (((P.shake seed 96).drop 64).take 32) ∧
    ((P.mlKeyGenDet ((P.shake seed 96).take 32)
        (((P.shake seed 96).drop 32).take 32)).1).length = 1184 ∧
    (P.getPkFromSk (((P.shake seed 96).drop 64).take 32)).length = 32 ∧
    (XWing.key_gen P seed).1.length = 1216 := by
  refine ⟨rfl, hsk, rfl, hmlpk _ _, hxpk _, ?_⟩
  have h1 := hmlpk ((P.shake seed 96).take 32) (((P.shake seed 96).drop 32).take 32)
  have h2 := hxpk (((P.shake seed 96).drop 64).take 32)
  simp only [XWing.key_gen, XWing.expand_decapsulation_key, List.length_append]
  omega

/-- C5 witness: the key-layout theorem at the concrete instantiation
`subP` and seed `seed₀`. -/
theorem C5_witness :
    (XWing.key_gen subP seed₀).2 = seed₀ ∧
    (XWing.key_gen subP seed₀).2.length = 32 ∧
    (XWing.key_gen subP seed₀).1
      = (subP.mlKeyGenDet ((subP.shake seed₀ 96).take 32)
          (((subP.shake seed₀ 96).drop 32).take 32)).1
        ++ subP.getPkFromSk (((subP.shake seed₀ 96).drop 64).take 32) ∧
    ((subP.mlKeyGenDet ((subP.shake seed₀ 96).take 32)
        (((subP.shake seed₀ 96).drop 32).take 32)).1).length = 1184 ∧
    (subP.getPkFromSk (((subP.shake seed₀ 96).drop 64).take 32)).length = 32 ∧
    (XWing.key_gen subP seed₀).1.length = 1216 :=
  C5_key_gen_layout subP seed₀ (by decide)
    (fun _ _ => by simp only [subP]; exact List.length_replicate 1184 2)
    (fun _ => by simp only [subP]; exact List.length_replicate 32 4)

/-- C6: `XWingKemManager::encap` on a public key whose length is not 1216
bytes fails with `InvalidPublicKey` before performing any computation (the
trace of executed sub-operations is empty), and on a 1216-byte public key
the guard passes and both sub-KEM encapsulations run (X25519 first, then
ML-KEM, then the combiner). -/
theorem C6_encap_length_guard (P : SubPrimitives) :
    (∀ pk : Bytes, pk.length ≠ 1216 →
       XWing.encapT P pk = (.error .InvalidPublicKey, [])) ∧
    (∀ pk : Bytes, pk.length = 1216 →
       (XWing.encapT P pk).2 = [.ecEncap, .mlEncap, .combine] ∧
       CryptoEvent.ecEncap ∈ (XWing.encapT P pk).2 ∧
       CryptoEvent.mlEncap ∈ (XWing.encapT P pk).2) := by
  constructor
  · intro pk h
    simp [XWing.encapT, h]
  · intro pk h
    refine ⟨by simp [XWing.encapT, h], ?_, ?_⟩ <;> simp [XWing.encapT, h]

/-- C6 witness: the guard theorem applied to the empty public key and to
the concrete 1216-byte public key `xwingPk₀`. -/
theorem C6_witness :
    XWing.encapT subP [] = (.error .InvalidPublicKey, []) ∧
    (XWing.encapT subP xwingPk₀).2 = [.ecEncap, .mlEncap, .combine] :=
  ⟨(C6_encap_length_guard subP).1 [] (by decide),
   ((C6_encap_length_guard subP).2 xwingPk₀ xwingPk₀_len).1⟩

/-- C2 counterexample: at the concrete instantiation `subP`, for the key
pair generated from `seed₀`, encapsulation returns the pair
`(shared_secret, ciphertext)` — not `(ciphertext, shared_secret)`:
decapsulating the FIRST component fails with `InvalidCiphertext` (it is
the 32-byte combiner output, not a 1120-byte ciphertext), while
decapsulating the SECOND component reproduces the first. -/
theorem C2_counterexample :
    (XWing.key_gen subP seed₀).1 = xwingPk₀ ∧
    XWing.encap subP xwingPk₀ = .ok (xwingSs₀, xwingCt₀) ∧
    XWing.decap subP seed₀ xwingSs₀ ≠ .ok xwingCt₀ ∧
    XWing.decap subP seed₀ xwingSs₀ = .error .InvalidCiphertext ∧
    XWing.decap subP seed₀ xwingCt₀ = .ok xwingSs₀ := by
  refine ⟨by rw [keygen_subP], encap_subP, ?_, decap_subP_ss, decap_subP_ct⟩
  rw [decap_subP_ss]
  intro h
  exact Except.noConfusion h

/-- C2 (amended): encapsulation returns the pair with the shared secret as
the FIRST component (the 32-byte combiner output) and the ciphertext as
the SECOND (1120 bytes); decapsulating that second component with the
matching private key reproduces the first. `PublicKey::encap` forwards the
pair produced by the resolved KEM unchanged, so the same ordering holds
for it. -/
theorem C2_encap_pair_order (P : SubPrimitives) (seed : Bytes)
    (hsha : ∀ x, (P.sha3_256 x).length = 32)
    (hmlpk : ∀ d z, ((P.mlKeyGenDet d z).1).length = 1184)
    (hxpk : ∀ s, (P.getPkFromSk s).length = 32)
    (hmlct : ∀ pk, ((P.mlEncap pk).2).length = 1088)
    (hecct : ∀ pk, ((P.ecEncap pk).2).length = 32)
    (hmlcor : ∀ d z, P.mlDecap (P.mlKeyGenDet d z).2 (P.mlEncap (P.mlKeyGenDet d z).1).2
        = (P.mlEncap (P.mlKeyGenDet d z).1).1)
    (heccor : ∀ s, P.ecDecap s (P.ecEncap (P.getPkFromSk s)).2
        = (P.ecEncap (P.getPkFromSk s)).1) :
    (∀ p, XWing.encap P (XWing.key_gen P seed).1 = .ok p →
       p.1.length = 32 ∧ p.2.length = 1120 ∧
       XWing.decap P (XWing.key_gen P seed).2 p.2 = .ok p.1) ∧
    (∀ (R : Registry) (k : PublicKey) (kem : KemInstance) (q : Bytes × Bytes),
       R.is_kem_oid k.oid = true → R.kemNew k.oid = .ok kem →
       kem.encap k.key = .ok q → PublicKey.encap R k = .ok q) := by
  constructor
  · intro p hp
    have hcomp := xwing_encap_ok_components P (XWing.key_gen P seed).1 p hp
    refine ⟨?_, ?_, ?_⟩
    · rw [hcomp.1, XWing.combiner]
      exact hsha _
    · rw [hcomp.2]
      simp [List.length_append, hmlct, hecct]
    · exact xwing_roundtrip_core P seed hmlpk hxpk hmlct hecct hmlcor heccor p hp
  · intro R k kem q h1 h2 h3
    simp [PublicKey.encap, h1, h2, h3]

/-- C2 witness: the amended theorem applied at the concrete instantiation
`subP` with seed `seed₀` and encapsulation result `(xwingSs₀, xwingCt₀)`,
and at the concrete registry `reg₀` with the KEM public key `kemPk₀`. -/
theorem C2_witness :
    (xwingSs₀.length = 32 ∧ xwingCt₀.length = 1120 ∧
      XWing.decap subP (XWing.key_gen subP seed₀).2 xwingCt₀ = .ok xwingSs₀) ∧
    PublicKey.encap reg₀ kemPk₀ = .ok ([10], [11]) :=
  ⟨(C2_encap_pair_order subP seed₀
      (fun _ => by simp only [subP]; exact List.length_replicate 32 9)
      (fun _ _ => by simp only [subP]; exact List.length_replicate 1184 2)
      (fun _ => by simp only [subP]; exact List.length_replicate 32 4)
      (fun _ => by simp only [subP]; exact List.length_replicate 1088 8)
      (fun _ => by simp only [subP]; exact List.length_replicate 32 6)
      (fun _ _ => by simp only [subP]) (fun _ => by simp only [subP])).1
      (xwingSs₀, xwingCt₀) (by rw [keygen_subP]; exact encap_subP),
   (C2_encap_pair_order subP seed₀
      (fun _ => by simp only [subP]; exact List.length_replicate 32 9)
      (fun _ _ => by simp only [subP]; exact List.length_replicate 1184 2)
      (fun _ => by simp only [subP]; exact List.length_replicate 32 4)
      (fun _ => by simp only [subP]; exact List.length_replicate 1088 8)
      (fun _ => by simp only [subP]; exact List.length_replicate 32 6)
      (fun _ _ => by simp only [subP]) (fun _ => by simp only [subP])).2
      reg₀ kemPk₀ kemInst₀ ([10], [11]) rfl rfl rfl⟩

/-- C7: the composite-key codec round trip — for all byte sequences `a`
and `b` (including empty ones), decoding the DER encoding of the
composite key `(a, b)` succeeds and returns exactly the composite key
whose post-quantum component is `a` and whose classical component is
`b`. -/
theorem C7_composite_roundtrip (oid : String) (a b : Bytes) :
    CompositePublicKey.from_der oid ((CompositePublicKey.new oid a b).to_der)
      = .ok (CompositePublicKey.new oid a b) := by
  have hb : Der.parseBitString (Der.bitStringDer b) = some (b, []) := by
    have h := Der.parseBitString_bitStringDer b []
    rwa [List.append_nil] at h
  simp only [CompositePublicKey.to_der, CompositePublicKey.new]
  rw [CompositePublicKey.from_der]
  rw [if_neg (by omega)]
  rw [Der.decodeLen_encodeLen]
  simp [Der.parseBitString_bitStringDer a (Der.bitStringDer b), hb,
    CompositePublicKey.new]

/-- C9: capability invoked on the wrong key kind yields the typed
`UnsupportedOperation` failure value (never a process abort): `sign` on a
private key whose OID is not a DSA OID, `decap` on a private key whose
OID is a DSA OID, and `PublicKey::encap` on a key whose OID is not a KEM
OID. -/
theorem C9_wrong_key_kind (R : Registry) (sk : PrivateKey) (pk : PublicKey)
    (data ct : Bytes) :
    (R.is_dsa_oid sk.oid = false →
      PrivateKey.sign R sk data = .error .UnsupportedOperation) ∧
    (R.is_dsa_oid sk.oid = true →
      PrivateKey.decap R sk ct = .error .UnsupportedOperation) ∧
    (R.is_kem_oid pk.oid = false →
      PublicKey.encap R pk = .error .UnsupportedOperation) := by
  refine ⟨fun h => ?_, fun h => ?_, fun h => ?_⟩
  · simp [PrivateKey.sign, h]
  · simp [PrivateKey.decap, h]
  · simp [PublicKey.encap, h]

/-- C9 witness: the typed-failure theorem at the concrete registry `reg₀`,
applied to a KEM private key (`sign`), a DSA private key (`decap`) and a
DSA public key (`encap`). -/
theorem C9_witness :
    PrivateKey.sign reg₀ kemSk₀ [1] = .error .UnsupportedOperation ∧
    PrivateKey.decap reg₀ dsaSk₀ [1] = .error .UnsupportedOperation ∧
    PublicKey.encap reg₀ dsaPk₀ = .error .UnsupportedOperation :=
  ⟨(C9_wrong_key_kind reg₀ kemSk₀ dsaPk₀ [1] [1]).1 (by decide),
   (C9_wrong_key_kind reg₀ dsaSk₀ dsaPk₀ [1] [1]).2.1 (by decide),
   (C9_wrong_key_kind reg₀ kemSk₀ dsaPk₀ [1] [1]).2.2 (by decide)⟩

/-- C10: `Keypair::verifying_key` on a `PrivateKey` whose OID is not a DSA
OID panics (aborts the process) instead of returning a typed error value;
on a DSA OID it also panics when the registry lookup fails or when the
public-key derivation fails, because both results are unwrapped. -/
theorem C10_verifying_key_panics (R : Registry) (k : PrivateKey) :
    (R.is_dsa_oid k.oid = false → PrivateKey.verifying_key R k = .panic) ∧
    (∀ e, R.is_dsa_oid k.oid = true → R.dsaNew k.oid = .error e →
       PrivateKey.verifying_key R k = .panic) ∧
    (∀ dsa e, R.is_dsa_oid k.oid = true → R.dsaNew k.oid = .ok dsa →
       dsa.get_public_key k.private_key = .error e →
       PrivateKey.verifying_key R k = .panic) := by
  refine ⟨fun h => ?_, fun e h1 h2 => ?_, fun dsa e h1 h2 h3 => ?_⟩
  · simp [PrivateKey.verifying_key, h]
  · simp [PrivateKey.verifying_key, h1, h2]
  · simp [PrivateKey.verifying_key, h1, h2, h3]

/-- C10 witness: the panic theorem at the concrete registry `reg₀`,
applied to a KEM private key, a DSA key with failing registry lookup, and
a DSA key with failing public-key derivation. -/
theorem C10_witness :
    PrivateKey.verifying_key reg₀ kemSk₀ = .panic ∧
    PrivateKey.verifying_key reg₀ dsaSkBad₀ = .panic ∧
    PrivateKey.verifying_key reg₀ dsaSkPkBad₀ = .panic :=
  ⟨(C10_verifying_key_panics reg₀ kemSk₀).1 (by decide),
   (C10_verifying_key_panics reg₀ dsaSkBad₀).2.1 .InvalidOid (by decide) rfl,
   (C10_verifying_key_panics reg₀ dsaSkPkBad₀).2.2 dsaInstPkBad₀ .InvalidPrivateKey
     (by decide) rfl rfl⟩

/-- C8: the envelope reader accepts its input either as the raw DER of a
`ContentInfo` or as a PEM text-wrapping of the same DER bytes, and fails
with `InvalidContent` whenever neither decoding succeeds or the outer
content type is not the enveloped-data type; in particular, an envelope
readable as raw DER is readable in its PEM encoding with the same result
(given that the PEM text itself is not valid DER, that PEM decoding
recovers the DER bytes, and that the decryption pipeline treats the two
encodings alike, as the spec requires of it). -/
theorem C8_reader_der_or_pem (C : CmsPrims) (cert : Bytes) (sk : PrivateKey) :
    (∀ data, C.contentInfoFromDer data = none → C.pemParse data = none →
       from_bytes_for_kem_recipient C data cert sk = .error .InvalidContent) ∧
    (∀ data c, C.contentInfoFromDer data = none → C.pemParse data = some c →
       C.contentInfoFromDer c = none →
       from_bytes_for_kem_recipient C data cert sk = .error .InvalidContent) ∧
    (∀ data ci, C.contentInfoFromDer data = some ci →
       ci.content_type ≠ ID_ENVELOPED_DATA →
       from_bytes_for_kem_recipient C data cert sk = .error .InvalidContent) ∧
    (∀ data c ci, C.contentInfoFromDer data = none → C.pemParse data = some c →
       C.contentInfoFromDer c = some ci → ci.content_type ≠ ID_ENVELOPED_DATA →
       from_bytes_for_kem_recipient C data cert sk = .error .InvalidContent) ∧
    (∀ d ci, C.contentInfoFromDer d = some ci →
       C.contentInfoFromDer (C.pemEncode d) = none →
       C.pemParse (C.pemEncode d) = some d →
       C.decrypt_kemri (C.pemEncode d) sk cert = C.decrypt_kemri d sk cert →
       from_bytes_for_kem_recipient C (C.pemEncode d) cert sk
         = from_bytes_for_kem_recipient C d cert sk) := by
  refine ⟨fun data h1 h2 => ?_, fun data c h1 h2 h3 => ?_,
    fun data ci h1 h2 => ?_, fun data c ci h1 h2 h3 h4 => ?_,
    fun d ci h1 h2 h3 h4 => ?_⟩
  · simp [from_bytes_for_kem_recipient, h1, h2]
  · simp [from_bytes_for_kem_recipient, h1, h2, h3]
  · simp [from_bytes_for_kem_recipient, h1, h2]
  · simp [from_bytes_for_kem_recipient, h1, h2, h3, h4]
  · simp [from_bytes_for_kem_recipient, h1, h2, h3, h4]

/-- C8 witness: the reader theorem at the concrete primitives `cms₀`:
input `[5]` parses as neither DER nor PEM; input `[7]` parses as a
`ContentInfo` with a non-enveloped-data content type; and the envelope
whose DER is `[0]` (PEM encoding `[9]`) is read identically in both
encodings. -/
theorem C8_witness :
    from_bytes_for_kem_recipient cms₀ [5] [0] kemSk₀ = .error .InvalidContent ∧
    from_bytes_for_kem_recipient cms₀ [7] [0] kemSk₀ = .error .InvalidContent ∧
    from_bytes_for_kem_recipient cms₀ (cms₀.pemEncode [0]) [0] kemSk₀
      = from_bytes_for_kem_recipient cms₀ [0] [0] kemSk₀ :=
  ⟨(C8_reader_der_or_pem cms₀ [0] kemSk₀).1 [5] (by decide) (by decide),
   (C8_reader_der_or_pem cms₀ [0] kemSk₀).2.2.1 [7]
     { content_type := "1.2.3", content := [1] } (by decide) (by decide),
   (C8_reader_der_or_pem cms₀ [0] kemSk₀).2.2.2.2 [0] ci₀
     (by decide) (by decide) (by decide) (by decide)⟩
